import Mathlib

/-!
Verification development for the k8s-autoscaler-benchmarker repository.

The Go sources are shallowly embedded: pure helpers become Lean functions,
polling loops become fuel-indexed recursive functions over explicit streams
of query results (one entry per poll tick), and the phase-5 channel-based
fan-in is modelled as a small nondeterministic transition system driven by
an explicit schedule.  Time is measured in the tick units of each loop
(one second for the provisioning and check tickers, one poll interval for
the node monitors).
-/

namespace KAB

/-! ## EC2 instance model (internal/aws/ec2.go)

`InstanceRef` mirrors the pointer shape of `*ec2.Instance` as used by
`GetInstanceState`: the instance pointer, its `State` pointer and the
`State.Name` pointer can each be nil, rendered here as `Option`. -/

structure InstanceStateRef where
  name : Option String
deriving Repr, DecidableEq

structure InstanceRef where
  state : Option InstanceStateRef
deriving Repr, DecidableEq

def InstanceStateNamePending : String := "pending"
def InstanceStateNameRunning : String := "running"
def InstanceStateNameTerminated : String := "terminated"

/-- `GetInstanceState` (ec2.go): returns "" when the instance, its State,
or the State.Name pointer is nil, and the dereferenced name otherwise. -/
def GetInstanceState : Option InstanceRef → String
  | none => ""
  | some inst =>
    match inst.state with
    | none => ""
    | some st =>
      match st.name with
      | none => ""
      | some n => n

/-- `IsInstancePending` (ec2.go). -/
def IsInstancePending (i : Option InstanceRef) : Bool :=
  GetInstanceState i == InstanceStateNamePending

/-- `IsInstanceRunning` (ec2.go). -/
def IsInstanceRunning (i : Option InstanceRef) : Bool :=
  GetInstanceState i == InstanceStateNameRunning

/-- `IsInstanceTerminated` (ec2.go). -/
def IsInstanceTerminated (i : Option InstanceRef) : Bool :=
  GetInstanceState i == InstanceStateNameTerminated

/-- A nil-shaped input: nil instance, nil State, or nil State.Name. -/
def nilShaped : Option InstanceRef → Bool
  | none => true
  | some inst =>
    match inst.state with
    | none => true
    | some st => st.name == none

/-! ## Autoscaler selector derivation (internal/config and package k8s)

These four functions and `validateConfig` inspect the pair of selector
flags `(nodepoolTag, nodeGroup)`.  Exactly one of the two must be
non-empty; otherwise each returns an error. -/

def selectorErrMsg : String :=
  "either nodepool tag or node group must be specified, not both or neither"

def configErrMsg : String :=
  "specify either --nodepool for Karpenter or --node-group for Cluster Autoscaler, not both"

/-- `validateConfig` (config.go): errors when both selectors are set or
both are empty. -/
def validateConfig (nodepoolTag nodeGroup : String) : Except String Unit :=
  if (nodepoolTag != "" && nodeGroup != "") || (nodepoolTag == "" && nodeGroup == "") then
    Except.error configErrMsg
  else
    Except.ok ()

/-- `GetAutoscalerType` (package k8s). -/
def GetAutoscalerType (nodepoolTag nodeGroup : String) : Except String String :=
  if nodepoolTag != "" && nodeGroup == "" then
    Except.ok "Karpenter"
  else if nodeGroup != "" && nodepoolTag == "" then
    Except.ok "Cluster Autoscaler"
  else
    Except.error selectorErrMsg

/-- `GetLabelSelectorForAutoscaler` (package k8s). -/
def GetLabelSelectorForAutoscaler (nodepoolTag nodeGroup : String) : Except String String :=
  if nodepoolTag != "" && nodeGroup == "" then
    Except.ok ("karpenter.sh/nodepool=" ++ nodepoolTag)
  else if nodeGroup != "" && nodepoolTag == "" then
    Except.ok ("eks.amazonaws.com/nodegroup=" ++ nodeGroup)
  else
    Except.error selectorErrMsg

/-- `GetTagKeyForAutoscaler` (package k8s). -/
def GetTagKeyForAutoscaler (nodepoolTag nodeGroup : String) : Except String String :=
  if nodepoolTag != "" && nodeGroup == "" then
    Except.ok "karpenter.sh/nodepool"
  else if nodeGroup != "" && nodepoolTag == "" then
    Except.ok "eks:nodegroup-name"
  else
    Except.error selectorErrMsg

/-- `GetTagValueForAutoscaler` (package k8s). -/
def GetTagValueForAutoscaler (nodepoolTag nodeGroup : String) : Except String String :=
  if nodepoolTag != "" && nodeGroup == "" then
    Except.ok nodepoolTag
  else if nodeGroup != "" && nodepoolTag == "" then
    Except.ok nodeGroup
  else
    Except.error selectorErrMsg

/-- Whether an `Except` is an error. -/
def isErr {α β : Type} : Except α β → Bool
  | Except.error _ => true
  | Except.ok _ => false

/-- The invalid-selector condition: both empty or both non-empty. -/
def bothOrNeither (nodepoolTag nodeGroup : String) : Prop :=
  (nodepoolTag = "" ∧ nodeGroup = "") ∨ (nodepoolTag ≠ "" ∧ nodeGroup ≠ "")

instance (np ng : String) : Decidable (bothOrNeither np ng) := by
  unfold bothOrNeither
  exact inferInstance

/-- `setupAutoscaler` (bench package, part_000): runs the four selector
derivations in order, then the autoscaler-readiness verification (the
first step that touches an inventory client).  The second component of
the result counts inventory client calls made: zero on every selector
error because `VerifyAutoscalerReady` only runs after all four
derivations succeed (and it itself lists nodes only for the node-group
variant). -/
def setupAutoscaler (nodepoolTag nodeGroup : String) (verifyResult : Except String Unit) :
    Except String (String × String × String × String) × Nat :=
  match GetAutoscalerType nodepoolTag nodeGroup with
  | Except.error e => (Except.error e, 0)
  | Except.ok ty =>
    match GetLabelSelectorForAutoscaler nodepoolTag nodeGroup with
    | Except.error e => (Except.error e, 0)
    | Except.ok ls =>
      match GetTagKeyForAutoscaler nodepoolTag nodeGroup with
      | Except.error e => (Except.error e, 0)
      | Except.ok tk =>
        match GetTagValueForAutoscaler nodepoolTag nodeGroup with
        | Except.error e => (Except.error e, 0)
        | Except.ok tv =>
          let calls := if nodeGroup == "" then 0 else 1
          match verifyResult with
          | Except.error e => (Except.error e, calls)
          | Except.ok _ => (Except.ok (ty, ls, tk, tv), calls)

/-- `LoadConfig` followed by benchmark setup (main.go ordering):
`validateConfig` runs inside `LoadConfig`, before `RunBenchmark` is ever
invoked, hence before any client call; on validation failure zero client
calls are made and zero phases start. -/
def loadThenSetup (nodepoolTag nodeGroup : String) (verifyResult : Except String Unit) :
    Except String (String × String × String × String) × Nat :=
  match validateConfig nodepoolTag nodeGroup with
  | Except.error e => (Except.error e, 0)
  | Except.ok _ => setupAutoscaler nodepoolTag nodeGroup verifyResult

/-! ## GetEC2Instances (internal/aws/ec2.go)

The compute inventory query.  An `Instance` here is a well-formed
instance record as consumed by the filter inside the pagination
callback (which dereferences `LaunchTime` and `State.Name` directly).
Launch times are modelled as `Nat`; `LaunchTime.After(ProgramStartTime)`
is the strict comparison `ProgramStartTime < launchTime`. -/

structure Instance where
  instanceId : String
  privateDnsName : String
  launchTime : Nat
  stateName : String
deriving Repr, DecidableEq

/-- Pages of `DescribeInstances` results: each page holds reservations,
each reservation holds instances. -/
abbrev Pages := List (List (List Instance))

/-- One call to `DescribeInstancesPages`: either it completes delivering
its pages, or it fails - classified as a Throttling error or any other
error - after having delivered some (possibly zero) pages to the
callback. -/
inductive QueryAttempt where
  | ok (pages : Pages)
  | throttle (pages : Pages)
  | fail (pages : Pages) (e : String)
deriving Repr, DecidableEq

def MaxRetries : Nat := 5
def BaseBackoffDelay : Nat := 1

/-- The filter applied to each instance inside the pagination callback:
`instance.LaunchTime.After(config.ProgramStartTime) && *instance.State.Name
!= ec2.InstanceStateNameTerminated`. -/
def keepInstance (programStartTime : Nat) (inst : Instance) : Bool :=
  decide (programStartTime < inst.launchTime) &&
    (inst.stateName != InstanceStateNameTerminated)

/-- The pagination callback body: append every qualifying instance of
every reservation of every page onto the accumulator `instances`. -/
def appendFiltered (programStartTime : Nat) (acc : List Instance) (pages : Pages) :
    List Instance :=
  pages.foldl
    (fun a page =>
      page.foldl (fun b res => b ++ res.filter (keepInstance programStartTime)) a)
    acc

/-- The retry loop of `GetEC2Instances`, structurally recursing on the
remaining retry budget (`MaxRetries - retries` in the source).  A
Throttling error sleeps for the current backoff, doubles it and
continues; any other error returns `nil, err` immediately (discarding
the accumulator); a successful attempt breaks out of the loop; and when
the budget is exhausted the loop falls through to `return instances,
nil` - a success carrying whatever was accumulated. -/
def getEC2Loop (programStartTime : Nat) (attempts : Nat → QueryAttempt) :
    Nat → Nat → Nat → List Instance → Except String (List Instance)
  | 0, _, _, acc => Except.ok acc
  | budget + 1, retry, backoff, acc =>
    match attempts retry with
    | QueryAttempt.ok pages => Except.ok (appendFiltered programStartTime acc pages)
    | QueryAttempt.throttle pages =>
      getEC2Loop programStartTime attempts budget (retry + 1) (backoff * 2)
        (appendFiltered programStartTime acc pages)
    | QueryAttempt.fail _ e =>
      Except.error ("failed to describe EC2 instances: " ++ e)

/-- `GetEC2Instances` (ec2.go): runs the retry loop from retry 0 with the
base backoff and an empty accumulator.  `attempts k` is the outcome of
the k-th `DescribeInstancesPages` call. -/
def GetEC2Instances (programStartTime : Nat) (attempts : Nat → QueryAttempt) :
    Except String (List Instance) :=
  getEC2Loop programStartTime attempts MaxRetries 0 BaseBackoffDelay []

/-- Flatten pages to the raw instance list they carry. -/
def pagesFlatten (pages : Pages) : List Instance :=
  pages.foldl (fun a page => page.foldl (fun b res => b ++ res) a) []

/-! ## Kubernetes node model (internal/k8s/deployment.go) -/

structure NodeCondition where
  condType : String
  status : String
deriving Repr, DecidableEq

structure Node where
  name : String
  conditions : List NodeCondition
deriving Repr, DecidableEq

def NodeReady : String := "Ready"
def ConditionTrue : String := "True"

/-- The inner loop of `countReadyNodes`: a node is counted once as soon
as one of its conditions has type `NodeReady` with status `True` (the
source breaks out of the condition loop after the first match). -/
def nodeIsReady (node : Node) : Bool :=
  node.conditions.any (fun c => c.condType == NodeReady && c.status == ConditionTrue)

/-- `countReadyNodes` (deployment.go): fold over the node list,
incrementing once per node exhibiting a Ready=True condition. -/
def countReadyNodes (nodes : List Node) : Nat :=
  nodes.foldl (fun acc node => if nodeIsReady node then acc + 1 else acc) 0

/-! ## Polling monitors

Each monitor is a fuel-indexed loop over a stream of per-tick query
results.  `cancelledAt = some c` means the shared context is done from
tick `c` onward; the `ctx.Done()` select case is modelled as observed at
the top of the iteration.  The provisioning monitor (monitoring.go) has
no context parameter in the source, so its model takes no cancellation
input at all. -/

/-- Outcome of one monitor run.  The payloads mirror the Go returns:
`success` carries `time.Since(startTime)` in tick units; `cancelled`
carries the elapsed value the source returns alongside `ctx.Err()`
(zero for the termination monitor, elapsed for the others);
`queryFailed` carries the wrapped query error (the source returns
elapsed 0 with it); `running` marks fuel exhaustion - the loop has not
returned yet. -/
inductive MonOutcome where
  | success (elapsed : Nat)
  | cancelled (elapsed : Nat) (msg : String)
  | queryFailed (msg : String)
  | running
deriving Repr, DecidableEq

/-- Whether the context is done at tick `t`. -/
def cancelObserved (cancelledAt : Option Nat) (t : Nat) : Bool :=
  match cancelledAt with
  | none => false
  | some c => decide (c ≤ t)

def contextCanceledMsg : String := "context canceled"

/-- `MonitorNodeRegistration` (deployment.go): each poll tick lists the
nodes matching the label selector; convergence when
`countReadyNodes nodes >= expectedNodeCount`.  On `ctx.Done()` it
returns `time.Since(startTime), ctx.Err()`; on a list error it returns
`0, error`.  The log ticker only prints and never alters the outcome. -/
def regRun (snaps : Nat → Except String (List Node)) (cancelledAt : Option Nat)
    (expected : Nat) : Nat → Nat → MonOutcome
  | 0, _ => MonOutcome.running
  | fuel + 1, tick =>
    if cancelObserved cancelledAt tick then
      MonOutcome.cancelled tick contextCanceledMsg
    else
      match snaps tick with
      | Except.error e =>
        MonOutcome.queryFailed ("failed to list nodes with selector: " ++ e)
      | Except.ok nodes =>
        if expected ≤ countReadyNodes nodes then
          MonOutcome.success (tick + 1)
        else
          regRun snaps cancelledAt expected fuel (tick + 1)

/-- `WaitForPodsReady` (deployment.go): each tick fetches the deployment
status; convergence when `ReadyReplicas == replicas` (exact equality in
the source). -/
def podsRun (status : Nat → Except String Nat) (cancelledAt : Option Nat)
    (replicas : Nat) : Nat → Nat → MonOutcome
  | 0, _ => MonOutcome.running
  | fuel + 1, tick =>
    if cancelObserved cancelledAt tick then
      MonOutcome.cancelled tick contextCanceledMsg
    else
      match status tick with
      | Except.error e =>
        MonOutcome.queryFailed ("failed to get deployment status: " ++ e)
      | Except.ok ready =>
        if ready == replicas then
          MonOutcome.success (tick + 1)
        else
          podsRun status cancelledAt replicas fuel (tick + 1)

/-- `MonitorNodeDeregistration` (deployment.go): convergence when the
node list for the selector is empty. -/
def deregRun (snaps : Nat → Except String (List Node)) (cancelledAt : Option Nat) :
    Nat → Nat → MonOutcome
  | 0, _ => MonOutcome.running
  | fuel + 1, tick =>
    if cancelObserved cancelledAt tick then
      MonOutcome.cancelled tick contextCanceledMsg
    else
      match snaps tick with
      | Except.error e => MonOutcome.queryFailed ("failed to list nodes: " ++ e)
      | Except.ok nodes =>
        if nodes.length == 0 then
          MonOutcome.success (tick + 1)
        else
          deregRun snaps cancelledAt fuel (tick + 1)

/-- `MonitorInstanceTermination` (monitoring.go): convergence when the
instance list for the tag is empty.  On `ctx.Done()` the source returns
`0, ctx.Err()`. -/
def termRun (snaps : Nat → Except String (List Instance)) (cancelledAt : Option Nat) :
    Nat → Nat → MonOutcome
  | 0, _ => MonOutcome.running
  | fuel + 1, tick =>
    if cancelObserved cancelledAt tick then
      MonOutcome.cancelled 0 contextCanceledMsg
    else
      match snaps tick with
      | Except.error e => MonOutcome.queryFailed ("failed to list instances: " ++ e)
      | Except.ok insts =>
        if insts.length == 0 then
          MonOutcome.success (tick + 1)
        else
          termRun snaps cancelledAt fuel (tick + 1)

/-! ## MonitorInstanceProvisioning (internal/aws/monitoring.go)

The provisioning monitor sleeps one second per iteration, checks its
hard-coded 60-second timeout (prompting the operator on expiry: a "yes"
answer resets `startTime` and polling continues in the same iteration, a
"no" answer returns a user-abort error), then queries the inventory and
converges when the list is non-empty and its first element is in
the "pending" state.  The function takes no context, so no cancellation
input appears here.  `env.queries now` is the inventory result at
wall-clock second `now`; `env.answers` is the stream of valid operator
answers (true = "yes"); invalid console entries only re-print the prompt
in the source and are elided.  State: `tick` = seconds elapsed since the
monitor began, `startT` = current value of `startTime`, `aIdx` = next
operator answer. -/

structure ProvEnv where
  queries : Nat → Except String (List Instance)
  answers : Nat → Bool

def provTimeoutSec : Nat := 60

/-- The convergence test of the provisioning loop:
`len(instances) > 0 && *instances[0].State.Name ==
ec2.InstanceStateNamePending` - only the first instance's state is
inspected. -/
def provPredicate (insts : List Instance) : Bool :=
  match insts with
  | [] => false
  | i :: _ => i.stateName == InstanceStateNamePending

/-- Return shape of `MonitorInstanceProvisioning`: elapsed
`time.Since(startTime)`, the `instanceCount` variable, and optionally an
error.  `instanceCount` is assigned only on the success path, so every
failure carries count 0. -/
inductive ProvOutcome where
  | success (elapsed count : Nat)
  | failure (elapsed count : Nat) (msg : String)
  | running
deriving Repr, DecidableEq

def userAbortMsg : String := "exiting due to user input"

def provRun (env : ProvEnv) : Nat → Nat → Nat → Nat → ProvOutcome
  | 0, _, _, _ => ProvOutcome.running
  | fuel + 1, tick, startT, aIdx =>
    let now := tick + 1
    let query := fun (startT' aIdx' : Nat) =>
      match env.queries now with
      | Except.error e =>
        ProvOutcome.failure (now - startT') 0 ("error retrieving EC2 instances: " ++ e)
      | Except.ok insts =>
        if provPredicate insts then
          ProvOutcome.success (now - startT') insts.length
        else
          provRun env fuel now startT' aIdx'
    if provTimeoutSec ≤ now - startT then
      if env.answers aIdx then
        query now (aIdx + 1)
      else
        ProvOutcome.failure (now - startT) 0 userAbortMsg
    else
      query startT aIdx

/-- Number of inventory queries `MonitorInstanceProvisioning` issues on
the same run: one per iteration that reaches the `GetEC2Instances`
call (ghost observation mirroring `provRun`). -/
def provQueriesIssued (env : ProvEnv) : Nat → Nat → Nat → Nat → Nat
  | 0, _, _, _ => 0
  | fuel + 1, tick, startT, aIdx =>
    let now := tick + 1
    let query := fun (startT' aIdx' : Nat) =>
      match env.queries now with
      | Except.error _ => 1
      | Except.ok insts =>
        if provPredicate insts then 1
        else 1 + provQueriesIssued env fuel now startT' aIdx'
    if provTimeoutSec ≤ now - startT then
      if env.answers aIdx then query now (aIdx + 1) else 0
    else
      query startT aIdx

/-! ## Phase-5 fan-in: monitorDeregistrationAndTermination (bench package)

The coordinator spawns one goroutine per branch.  Each branch publishes
exactly one signal: a duration onto its own buffered channel
(`deregChan`, `termChan`, capacity 1 each) or a wrapped error onto the
shared `errChan` (capacity 2).  A third goroutine waits for both
branches and then closes all three channels.  The collector loop runs
exactly two `select` iterations; a receive from a closed empty channel
yields the zero value (nil error, zero duration).

The model: channel contents after both branches have published, plus a
schedule recording which ready channel each `select` iteration picks,
whether the closer goroutine has already closed the channels before
each iteration (monotone), and the order the two errors entered
`errChan` when both branches fail.  Picking a channel that is neither
non-empty nor closed would block that `select`; such schedules are
marked `blocked` and correspond to no completed run. -/

inductive BranchOutcomeK where
  | ok (d : Nat)
  | fail (e : String)
deriving Repr, DecidableEq

structure Phase5Outcomes where
  dereg : BranchOutcomeK
  term : BranchOutcomeK
deriving Repr, DecidableEq

/-- Wrapping applied by the deregistration goroutine before sending on
`errChan`. -/
def wrapDereg (e : String) : String := "node deregistration monitoring failed: " ++ e

/-- Wrapping applied by the termination goroutine before sending on
`errChan`. -/
def wrapTerm (e : String) : String := "instance termination monitoring failed: " ++ e

/-- Contents of `errChan` after both branches have published, in FIFO
order; `termErrFirst` resolves the send order when both branches fail. -/
def errListK (o : Phase5Outcomes) (termErrFirst : Bool) : List String :=
  match o.dereg, o.term with
  | BranchOutcomeK.fail e1, BranchOutcomeK.fail e2 =>
    if termErrFirst then [wrapTerm e2, wrapDereg e1] else [wrapDereg e1, wrapTerm e2]
  | BranchOutcomeK.fail e1, BranchOutcomeK.ok _ => [wrapDereg e1]
  | BranchOutcomeK.ok _, BranchOutcomeK.fail e2 => [wrapTerm e2]
  | BranchOutcomeK.ok _, BranchOutcomeK.ok _ => []

/-- Contents of `deregChan` after publication. -/
def deregBufK (o : Phase5Outcomes) : List Nat :=
  match o.dereg with
  | BranchOutcomeK.ok d => [d]
  | BranchOutcomeK.fail _ => []

/-- Contents of `termChan` after publication. -/
def termBufK (o : Phase5Outcomes) : List Nat :=
  match o.term with
  | BranchOutcomeK.ok d => [d]
  | BranchOutcomeK.fail _ => []

inductive ChanPick where
  | errC
  | deregC
  | termC
deriving Repr, DecidableEq

/-- Schedule of the two collector iterations. -/
structure Sched where
  pick0 : ChanPick
  pick1 : ChanPick
  closed0 : Bool
  closed1 : Bool
  termErrFirst : Bool
deriving Repr, DecidableEq

structure CollectState where
  errs : List String
  dbuf : List Nat
  tbuf : List Nat
  deregTime : Nat
  termTime : Nat
deriving Repr, DecidableEq

def initState (o : Phase5Outcomes) (s : Sched) : CollectState :=
  { errs := errListK o s.termErrFirst
    dbuf := deregBufK o
    tbuf := termBufK o
    deregTime := 0
    termTime := 0 }

/-- Return value of the collector: the source returns `0, 0, err` on the
error path and `deregTime, termTime, nil` after two iterations. -/
inductive CollectResult where
  | err (deregTime termTime : Nat) (msg : String)
  | ok (deregTime termTime : Nat)
  | blocked
deriving Repr, DecidableEq

/-- One `select` iteration of the collector.  `none`: the picked channel
is empty and unclosed, so this `select` would not choose it (blocked
schedule).  `some (some r, st)`: the collector returns `r` (state `st`
records the channels after the read).  `some (none, st)`: the iteration
completed and the loop continues.  A real error from `errChan` triggers
`return 0, 0, err`; a nil error received from the closed `errChan`
merely consumes the iteration; a duration (real or the zero value of a
closed channel) is stored into the matching local variable. -/
def collectStep (st : CollectState) (closed : Bool) (pick : ChanPick) :
    Option (Option CollectResult × CollectState) :=
  match pick with
  | ChanPick.errC =>
    match st.errs with
    | e :: rest => some (some (CollectResult.err 0 0 e), { st with errs := rest })
    | [] => if closed then some (none, st) else none
  | ChanPick.deregC =>
    match st.dbuf with
    | d :: rest => some (none, { st with dbuf := rest, deregTime := d })
    | [] => if closed then some (none, { st with deregTime := 0 }) else none
  | ChanPick.termC =>
    match st.tbuf with
    | d :: rest => some (none, { st with tbuf := rest, termTime := d })
    | [] => if closed then some (none, { st with termTime := 0 }) else none

/-- Trace of a collector run: its return value, the channel state when
it returned, how many signals it read, and whether it cancelled the
shared context.  The source function receives the parent context but
holds no `CancelFunc` and never cancels anything, so the last field is
false on every path. -/
structure CollectTrace where
  result : CollectResult
  final : CollectState
  reads : Nat
  contextCancelledByCollector : Bool
deriving Repr, DecidableEq

def collectTrace (o : Phase5Outcomes) (s : Sched) : CollectTrace :=
  let st0 := initState o s
  match collectStep st0 s.closed0 s.pick0 with
  | none => ⟨CollectResult.blocked, st0, 0, false⟩
  | some (some r, st1) => ⟨r, st1, 1, false⟩
  | some (none, st1) =>
    match collectStep st1 (s.closed0 || s.closed1) s.pick1 with
    | none => ⟨CollectResult.blocked, st1, 1, false⟩
    | some (some r, st2) => ⟨r, st2, 2, false⟩
    | some (none, st2) => ⟨CollectResult.ok st2.deregTime st2.termTime, st2, 2, false⟩

/-- `monitorDeregistrationAndTermination`'s collect loop, outcome only. -/
def collect (o : Phase5Outcomes) (s : Sched) : CollectResult :=
  (collectTrace o s).result

/-! ## executeBenchmark (bench package, part_000)

Sequential composition of the phases.  The second component of the
success value is a ghost observation: the `instanceCount` value that
`executeBenchmark` passes to `MonitorNodeRegistration` as
`expectedNodeCount`.  The `running`/`blocked` branches mark runs whose
fuel ran out while a monitor was still polling; they are modelling
artifacts, not source returns. -/

/-- The signal a phase-5 branch goroutine publishes once its monitor
returns: the duration on success, the monitor error otherwise (the
goroutine wraps it before the send; the wrapping lives in `errListK`).
`none` while the monitor is still polling. -/
def branchSignal : MonOutcome → Option BranchOutcomeK
  | MonOutcome.success e => some (BranchOutcomeK.ok e)
  | MonOutcome.cancelled _ m => some (BranchOutcomeK.fail m)
  | MonOutcome.queryFailed m => some (BranchOutcomeK.fail m)
  | MonOutcome.running => none

structure BenchmarkResult where
  provisioningTime : Nat
  registrationTime : Nat
  podReadinessTime : Nat
  deregistrationTime : Nat
  terminationTime : Nat
deriving Repr, DecidableEq

structure BenchEnv where
  provEnv : ProvEnv
  provFuel : Nat
  cancelledAt : Option Nat
  regSnaps : Nat → Except String (List Node)
  regFuel : Nat
  podStatus : Nat → Except String Nat
  podFuel : Nat
  replicas : Nat
  deregSnaps : Nat → Except String (List Node)
  deregFuel : Nat
  termSnaps : Nat → Except String (List Instance)
  termFuel : Nat
  sched : Sched

def executeBenchmark (env : BenchEnv) : Except String (BenchmarkResult × Nat) :=
  match provRun env.provEnv env.provFuel 0 0 0 with
  | ProvOutcome.failure _ _ e => Except.error ("instance provisioning failed: " ++ e)
  | ProvOutcome.running => Except.error "instance provisioning still polling"
  | ProvOutcome.success provT n =>
    match regRun env.regSnaps env.cancelledAt n env.regFuel 0 with
    | MonOutcome.cancelled _ m =>
      Except.error ("node registration monitoring failed: " ++ m)
    | MonOutcome.queryFailed m =>
      Except.error ("node registration monitoring failed: " ++ m)
    | MonOutcome.running => Except.error "node registration still polling"
    | MonOutcome.success regT =>
      match podsRun env.podStatus env.cancelledAt env.replicas env.podFuel 0 with
      | MonOutcome.cancelled _ m =>
        Except.error ("pod readiness monitoring failed: " ++ m)
      | MonOutcome.queryFailed m =>
        Except.error ("pod readiness monitoring failed: " ++ m)
      | MonOutcome.running => Except.error "pod readiness still polling"
      | MonOutcome.success podT =>
        match branchSignal (deregRun env.deregSnaps env.cancelledAt env.deregFuel 0),
              branchSignal (termRun env.termSnaps env.cancelledAt env.termFuel 0) with
        | some db, some tb =>
          match collect ⟨db, tb⟩ env.sched with
          | CollectResult.err _ _ e => Except.error e
          | CollectResult.blocked => Except.error "scale-down collector still waiting"
          | CollectResult.ok d t =>
            Except.ok (⟨provT, regT, podT, d, t⟩, n)
        | _, _ => Except.error "scale-down branches still polling"

/-! ## Configured intervals and timeouts (internal/config)

`NodeStatusPollInterval` is 5 seconds; the default per-phase timeouts in
`TimeoutConfig` are ten minutes (five for readiness).  The parsed
timeout values are never passed to any monitor. -/

def NodeStatusPollIntervalSec : Nat := 5
def RegistrationTimeoutSec : Nat := 600

/-! # Theorems -/

/-- C10: for every instance value - nil instance, nil State, or nil
State.Name included - `GetInstanceState` totally returns a string: the
empty string in the nil-shaped cases and the dereferenced state name
otherwise; consequently `IsInstancePending`, `IsInstanceRunning` and
`IsInstanceTerminated` never fault and return false on every nil-shaped
input. -/
theorem c10_nil_safe_instance_state (i : Option InstanceRef) :
    (nilShaped i = true →
      GetInstanceState i = "" ∧ IsInstancePending i = false ∧
      IsInstanceRunning i = false ∧ IsInstanceTerminated i = false) ∧
    (∀ inst st n, i = some inst → inst.state = some st → st.name = some n →
      GetInstanceState i = n) := by
  constructor
  · intro h
    have hz : GetInstanceState i = "" := by
      match i with
      | none => rfl
      | some inst =>
        match hs : inst.state with
        | none => simp [GetInstanceState, hs]
        | some st =>
          have hn : st.name = none := by
            have := h
            simp only [nilShaped, hs] at this
            exact Option.eq_none_iff_forall_not_mem.mpr (by
              intro a ha
              rw [Option.mem_def] at ha
              rw [ha] at this
              simp at this)
          simp [GetInstanceState, hs, hn]
    refine ⟨hz, ?_, ?_, ?_⟩ <;>
      simp [IsInstancePending, IsInstanceRunning, IsInstanceTerminated, hz,
        InstanceStateNamePending, InstanceStateNameRunning, InstanceStateNameTerminated]
  · intro inst st n hi hs hn
    subst hi
    simp [GetInstanceState, hs, hn]

/-- Witness for C10 at the concrete nil-State input and at a concrete
well-formed input. -/
theorem c10_nil_safe_instance_state_witness :
    (GetInstanceState (some ⟨none⟩) = "" ∧
      IsInstancePending (some ⟨none⟩) = false ∧
      IsInstanceRunning (some ⟨none⟩) = false ∧
      IsInstanceTerminated (some ⟨none⟩) = false) ∧
    GetInstanceState (some ⟨some ⟨some "running"⟩⟩) = "running" :=
  ⟨(c10_nil_safe_instance_state (some ⟨none⟩)).1 (by decide),
   (c10_nil_safe_instance_state (some ⟨some ⟨some "running"⟩⟩)).2
     ⟨some ⟨some "running"⟩⟩ ⟨some "running"⟩ "running" rfl rfl rfl⟩

/-- C9: validation and each selector-derivation function error exactly
when both selector inputs are empty or both are non-empty; on the
invalid configuration, `validateConfig` fails inside `LoadConfig`,
before any phase starts and before any inventory client call (the
client-call count of the composed setup is zero). -/
theorem c9_selector_validation (np ng : String) (verify : Except String Unit) :
    (isErr (validateConfig np ng) = true ↔ bothOrNeither np ng) ∧
    (isErr (GetAutoscalerType np ng) = true ↔ bothOrNeither np ng) ∧
    (isErr (GetLabelSelectorForAutoscaler np ng) = true ↔ bothOrNeither np ng) ∧
    (isErr (GetTagKeyForAutoscaler np ng) = true ↔ bothOrNeither np ng) ∧
    (isErr (GetTagValueForAutoscaler np ng) = true ↔ bothOrNeither np ng) ∧
    (bothOrNeither np ng → loadThenSetup np ng verify = (Except.error configErrMsg, 0)) := by
  by_cases hn : np = "" <;> by_cases hg : ng = "" <;>
    simp [validateConfig, GetAutoscalerType, GetLabelSelectorForAutoscaler,
      GetTagKeyForAutoscaler, GetTagValueForAutoscaler, isErr, bothOrNeither,
      loadThenSetup, hn, hg]

/-- Witness for C9 at both-empty and both-set selector pairs, and a
valid single-selector pair. -/
theorem c9_selector_validation_witness :
    loadThenSetup "" "" (Except.ok ()) = (Except.error configErrMsg, 0) ∧
    loadThenSetup "pool" "grp" (Except.ok ()) = (Except.error configErrMsg, 0) ∧
    isErr (validateConfig "pool" "") = false :=
  ⟨(c9_selector_validation "" "" (Except.ok ())).2.2.2.2.2 (by decide),
   (c9_selector_validation "pool" "grp" (Except.ok ())).2.2.2.2.2 (by decide),
   by
    have h := (c9_selector_validation "pool" "" (Except.ok ())).1
    cases hb : isErr (validateConfig "pool" "") with
    | false => rfl
    | true => exact absurd (h.mp hb) (by decide)⟩

/-! ### Lemmas about the pagination folds -/

lemma foldl_append_filter (p : Instance → Bool) (rs : List (List Instance))
    (acc : List Instance) :
    rs.foldl (fun b res => b ++ res.filter p) acc = acc ++ rs.flatten.filter p := by
  induction rs generalizing acc with
  | nil => simp
  | cons r rs ih => simp [ih, List.filter_append]

lemma foldl_append_id (rs : List (List Instance)) (acc : List Instance) :
    rs.foldl (fun b res => b ++ res) acc = acc ++ rs.flatten := by
  induction rs generalizing acc with
  | nil => simp
  | cons r rs ih => simp [ih]

lemma pagesFoldl_acc (pages : Pages) (acc : List Instance) :
    pages.foldl (fun a page => page.foldl (fun b res => b ++ res) a) acc =
      acc ++ pagesFlatten pages := by
  induction pages generalizing acc with
  | nil => simp [pagesFlatten]
  | cons pg pgs ih =>
    have hflat : pagesFlatten (pg :: pgs) = pg.flatten ++ pagesFlatten pgs := by
      show pgs.foldl (fun a page => page.foldl (fun b res => b ++ res) a)
          (pg.foldl (fun b res => b ++ res) []) = pg.flatten ++ pagesFlatten pgs
      rw [foldl_append_id, List.nil_append]
      exact ih pg.flatten
    show pgs.foldl (fun a page => page.foldl (fun b res => b ++ res) a)
        (pg.foldl (fun b res => b ++ res) acc) = acc ++ pagesFlatten (pg :: pgs)
    rw [foldl_append_id, ih, hflat, List.append_assoc]

lemma pagesFlatten_cons (pg : List (List Instance)) (pgs : Pages) :
    pagesFlatten (pg :: pgs) = pg.flatten ++ pagesFlatten pgs := by
  show pgs.foldl (fun a page => page.foldl (fun b res => b ++ res) a)
      (pg.foldl (fun b res => b ++ res) []) = pg.flatten ++ pagesFlatten pgs
  rw [pagesFoldl_acc, foldl_append_id, List.nil_append]

lemma appendFiltered_eq (ps : Nat) (pages : Pages) (acc : List Instance) :
    appendFiltered ps acc pages = acc ++ (pagesFlatten pages).filter (keepInstance ps) := by
  induction pages generalizing acc with
  | nil => simp [appendFiltered, pagesFlatten]
  | cons pg pgs ih =>
    simp only [appendFiltered, List.foldl_cons] at *
    rw [foldl_append_filter, ih, pagesFlatten_cons, List.filter_append,
      List.append_assoc]

/-- One step of the retry loop. -/
lemma getEC2Loop_succ (ps : Nat) (att : Nat → QueryAttempt)
    (budget retry backoff : Nat) (acc : List Instance) :
    getEC2Loop ps att (budget + 1) retry backoff acc =
      match att retry with
      | QueryAttempt.ok pages => Except.ok (appendFiltered ps acc pages)
      | QueryAttempt.throttle pages =>
        getEC2Loop ps att budget (retry + 1) (backoff * 2) (appendFiltered ps acc pages)
      | QueryAttempt.fail _ e =>
        Except.error ("failed to describe EC2 instances: " ++ e) := rfl

/-- C4 counterexample to the claim as stated: an instance whose launch
time equals the benchmark start instant (and whose state is not
"terminated") satisfies the claimed inclusion condition
`launchTime >= benchmarkStart` yet is excluded, because the source
filter uses the strict `LaunchTime.After(ProgramStartTime)`. -/
theorem c4_boundary_excluded :
    ((100 : Nat) ≤ (Instance.mk "i-1" "dns" 100 "running").launchTime ∧
      (Instance.mk "i-1" "dns" 100 "running").stateName ≠ InstanceStateNameTerminated) ∧
    GetEC2Instances 100
      (fun _ => QueryAttempt.ok [[[Instance.mk "i-1" "dns" 100 "running"]]]) =
      Except.ok [] :=
  ⟨by decide, rfl⟩

/-- C4 (amended): for every page of results, `GetEC2Instances` includes
an instance in its returned list if and only if the instance's launch
time is strictly after the benchmark start instant and its state is not
"terminated"; boundary instances launched exactly at the start instant
are excluded along with earlier-launched and terminated ones. -/
theorem c4_strict_launch_filter (ps : Nat) (att : Nat → QueryAttempt)
    (pages : Pages) (l : List Instance) (i : Instance)
    (h0 : att 0 = QueryAttempt.ok pages)
    (hl : GetEC2Instances ps att = Except.ok l) :
    i ∈ l ↔ i ∈ pagesFlatten pages ∧ ps < i.launchTime ∧
      i.stateName ≠ InstanceStateNameTerminated := by
  have hstep := getEC2Loop_succ ps att 4 0 BaseBackoffDelay []
  rw [h0] at hstep
  have hrun : GetEC2Instances ps att = Except.ok (appendFiltered ps [] pages) := hstep
  rw [hrun] at hl
  have hleq : l = appendFiltered ps [] pages := by
    cases hl
    rfl
  subst hleq
  rw [appendFiltered_eq]
  simp [List.mem_filter, keepInstance, InstanceStateNameTerminated, and_assoc]

/-- Witness for C4 at a concrete three-instance page: the
strictly-later instance is included; the boundary instance is not. -/
theorem c4_strict_launch_filter_witness :
    (Instance.mk "a" "d" 11 "running" ∈ [Instance.mk "a" "d" 11 "running"] ↔
      Instance.mk "a" "d" 11 "running" ∈
        pagesFlatten [[[Instance.mk "a" "d" 11 "running",
          Instance.mk "b" "d" 10 "running", Instance.mk "c" "d" 12 "terminated"]]] ∧
      10 < (Instance.mk "a" "d" 11 "running").launchTime ∧
      (Instance.mk "a" "d" 11 "running").stateName ≠ InstanceStateNameTerminated) ∧
    (Instance.mk "b" "d" 10 "running" ∈ [Instance.mk "a" "d" 11 "running"] ↔
      Instance.mk "b" "d" 10 "running" ∈
        pagesFlatten [[[Instance.mk "a" "d" 11 "running",
          Instance.mk "b" "d" 10 "running", Instance.mk "c" "d" 12 "terminated"]]] ∧
      10 < (Instance.mk "b" "d" 10 "running").launchTime ∧
      (Instance.mk "b" "d" 10 "running").stateName ≠ InstanceStateNameTerminated) :=
  ⟨c4_strict_launch_filter 10
      (fun _ => QueryAttempt.ok [[[Instance.mk "a" "d" 11 "running",
        Instance.mk "b" "d" 10 "running", Instance.mk "c" "d" 12 "terminated"]]])
      _ _ _ rfl rfl,
   c4_strict_launch_filter 10
      (fun _ => QueryAttempt.ok [[[Instance.mk "a" "d" 11 "running",
        Instance.mk "b" "d" 10 "running", Instance.mk "c" "d" 12 "terminated"]]])
      _ _ _ rfl rfl⟩

/-! ### Lemmas about the retry loop -/

lemma getEC2Loop_all_throttle (ps : Nat) (att : Nat → QueryAttempt) :
    ∀ budget retry backoff acc,
      (∀ k, retry ≤ k → k < retry + budget → ∃ p, att k = QueryAttempt.throttle p) →
      ∃ l, getEC2Loop ps att budget retry backoff acc = Except.ok l := by
  intro budget
  induction budget with
  | zero => exact fun retry backoff acc _ => ⟨acc, rfl⟩
  | succ n ih =>
    intro retry backoff acc h
    obtain ⟨p, hp⟩ := h retry (Nat.le_refl _) (by omega)
    rw [getEC2Loop_succ, hp]
    exact ih (retry + 1) (backoff * 2) (appendFiltered ps acc p)
      (fun k hk1 hk2 => h k (by omega) (by omega))

lemma getEC2Loop_fail_at (ps : Nat) (att att2 : Nat → QueryAttempt) :
    ∀ m budget retry backoff acc e pgs,
      m < budget →
      (∀ j, j < m → ∃ p, att (retry + j) = QueryAttempt.throttle p) →
      att (retry + m) = QueryAttempt.fail pgs e →
      (∀ j, j ≤ m → att2 (retry + j) = att (retry + j)) →
      getEC2Loop ps att2 budget retry backoff acc =
        Except.error ("failed to describe EC2 instances: " ++ e) := by
  intro m
  induction m with
  | zero =>
    intro budget retry backoff acc e pgs hb _ hfail hagree
    obtain ⟨b, rfl⟩ : ∃ b, budget = b + 1 := ⟨budget - 1, by omega⟩
    rw [getEC2Loop_succ]
    have h0 : att2 retry = QueryAttempt.fail pgs e := by
      have := hagree 0 (Nat.le_refl _)
      rw [Nat.add_zero] at this hfail
      rw [this, hfail]
    rw [h0]
  | succ k ih =>
    intro budget retry backoff acc e pgs hb hthr hfail hagree
    obtain ⟨b, rfl⟩ : ∃ b, budget = b + 1 := ⟨budget - 1, by omega⟩
    obtain ⟨p, hp⟩ := hthr 0 (Nat.succ_pos _)
    rw [Nat.add_zero] at hp
    have h0 : att2 retry = QueryAttempt.throttle p := by
      have := hagree 0 (Nat.zero_le _)
      rw [Nat.add_zero] at this
      rw [this, hp]
    rw [getEC2Loop_succ, h0]
    exact ih b (retry + 1) (backoff * 2) (appendFiltered ps acc p) e pgs (by omega)
      (fun j hj => by
        have := hthr (j + 1) (by omega)
        rwa [show retry + (j + 1) = retry + 1 + j by omega] at this)
      (by
        have := hfail
        rwa [show retry + (k + 1) = retry + 1 + k by omega] at this)
      (fun j hj => by
        have := hagree (j + 1) (by omega)
        rwa [show retry + (j + 1) = retry + 1 + j by omega] at this)

/-- C3 counterexample to the claim as stated: when every attempt fails
with a classified-transient Throttling error, the retry loop exhausts
`MaxRetries` and falls through to `return instances, nil` - `GetEC2Instances`
returns a success value (the accumulated, here empty, list) and never a
non-nil error. -/
theorem c3_exhaustion_returns_success :
    GetEC2Instances 0 (fun _ => QueryAttempt.throttle []) = Except.ok [] ∧
    ∀ e, GetEC2Instances 0 (fun _ => QueryAttempt.throttle []) ≠ Except.error e := by
  refine ⟨rfl, ?_⟩
  intro e h
  have h2 : Except.ok ([] : List Instance) = Except.error e := h
  cases h2

/-- C3 (amended): a Throttling failure is retried with doubled backoff,
but a run whose every attempt throttles exhausts the `MaxRetries`
budget and returns the accumulated instance list with a nil error
rather than surfacing a QueryError; any non-transient failure still
aborts immediately with that wrapped error, regardless of what later
attempts would return. -/
theorem c3_throttle_exhaustion (ps : Nat) (att att2 : Nat → QueryAttempt)
    (k : Nat) (e : String) (pgs : Pages) :
    ((∀ j, j < MaxRetries → ∃ p, att j = QueryAttempt.throttle p) →
      ∃ l, GetEC2Instances ps att = Except.ok l) ∧
    (k < MaxRetries →
      (∀ j, j < k → ∃ p, att j = QueryAttempt.throttle p) →
      att k = QueryAttempt.fail pgs e →
      (∀ j, j ≤ k → att2 j = att j) →
      GetEC2Instances ps att2 =
        Except.error ("failed to describe EC2 instances: " ++ e)) := by
  constructor
  · intro h
    exact getEC2Loop_all_throttle ps att MaxRetries 0 BaseBackoffDelay []
      (fun j hj1 hj2 => h j (by omega))
  · intro hk hthr hfail hagree
    exact getEC2Loop_fail_at ps att att2 k MaxRetries 0 BaseBackoffDelay [] e pgs hk
      (fun j hj => by simpa using hthr j hj)
      (by simpa using hfail)
      (fun j hj => by simpa using hagree j hj)

/-- Witness for C3: a concrete attempt stream that throttles twice and
then fails permanently surfaces the wrapped permanent error. -/
theorem c3_throttle_exhaustion_witness :
    GetEC2Instances 7 (fun j => if j == 2 then QueryAttempt.fail [] "boom"
        else QueryAttempt.throttle []) =
      Except.error ("failed to describe EC2 instances: " ++ "boom") :=
  (c3_throttle_exhaustion 7
      (fun j => if j == 2 then QueryAttempt.fail [] "boom" else QueryAttempt.throttle [])
      (fun j => if j == 2 then QueryAttempt.fail [] "boom" else QueryAttempt.throttle [])
      2 "boom" []).2 (by decide)
    (by
      intro j hj
      interval_cases j <;> exact ⟨[], rfl⟩)
    rfl
    (fun j _ => rfl)

/-! ### Step lemmas for the monitors -/

lemma regRun_succ (snaps : Nat → Except String (List Node)) (c : Option Nat)
    (expected fuel tick : Nat) :
    regRun snaps c expected (fuel + 1) tick =
      if cancelObserved c tick then
        MonOutcome.cancelled tick contextCanceledMsg
      else
        match snaps tick with
        | Except.error e =>
          MonOutcome.queryFailed ("failed to list nodes with selector: " ++ e)
        | Except.ok nodes =>
          if expected ≤ countReadyNodes nodes then
            MonOutcome.success (tick + 1)
          else
            regRun snaps c expected fuel (tick + 1) := rfl

lemma countReadyNodes_foldl (nodes : List Node) (acc : Nat) :
    nodes.foldl (fun a node => if nodeIsReady node then a + 1 else a) acc =
      acc + (nodes.filter nodeIsReady).length := by
  induction nodes generalizing acc with
  | nil => simp
  | cons n ns ih =>
    cases h : nodeIsReady n <;> simp [List.filter_cons, h, ih] <;> omega

lemma countReadyNodes_eq_filter (nodes : List Node) :
    countReadyNodes nodes = (nodes.filter nodeIsReady).length := by
  simpa using countReadyNodes_foldl nodes 0

lemma regRun_const_not_ready (nodes : List Node) (expected : Nat)
    (h : countReadyNodes nodes < expected) :
    ∀ fuel tick, regRun (fun _ => Except.ok nodes) none expected fuel tick =
      MonOutcome.running := by
  intro fuel
  induction fuel with
  | zero => intro tick; rfl
  | succ n ih =>
    intro tick
    rw [regRun_succ]
    simp only [cancelObserved, if_false, Bool.false_eq_true]
    rw [if_neg (by omega)]
    exact ih (tick + 1)

/-- C6: the registration monitor's convergence predicate holds on an
inventory snapshot exactly when the count of nodes exhibiting a
Ready=True condition is at least the expected node count (a strictly
greater ready count also converges, via `≤`), and `countReadyNodes`
counts each node at most once no matter how many Ready conditions it
carries: it equals the length of the list of nodes having at least one
Ready=True condition. -/
theorem c6_registration_predicate (nodes : List Node) (expected fuel tick : Nat) :
    countReadyNodes nodes = (nodes.filter nodeIsReady).length ∧
    (regRun (fun _ => Except.ok nodes) none expected (fuel + 1) tick =
        MonOutcome.success (tick + 1) ↔ expected ≤ countReadyNodes nodes) := by
  refine ⟨countReadyNodes_eq_filter nodes, ?_, ?_⟩
  · intro h
    by_contra hlt
    rw [regRun_const_not_ready nodes expected (by omega) (fuel + 1) tick] at h
    cases h
  · intro h
    rw [regRun_succ]
    simp [cancelObserved, h]

/-- Witness for C6: a node carrying two Ready=True conditions counts
once, a not-ready node counts zero; the monitor converges with
expected 1 (ready count 1 ≥ 1). -/
theorem c6_registration_predicate_witness :
    countReadyNodes
        [Node.mk "n1" [NodeCondition.mk "Ready" "True", NodeCondition.mk "Ready" "True"],
         Node.mk "n2" [NodeCondition.mk "Ready" "False"]] = 1 ∧
    (regRun (fun _ => Except.ok
        [Node.mk "n1" [NodeCondition.mk "Ready" "True", NodeCondition.mk "Ready" "True"],
         Node.mk "n2" [NodeCondition.mk "Ready" "False"]]) none 1 1 0 =
        MonOutcome.success 1 ↔
      1 ≤ countReadyNodes
        [Node.mk "n1" [NodeCondition.mk "Ready" "True", NodeCondition.mk "Ready" "True"],
         Node.mk "n2" [NodeCondition.mk "Ready" "False"]]) :=
  ⟨by decide,
   (c6_registration_predicate
      [Node.mk "n1" [NodeCondition.mk "Ready" "True", NodeCondition.mk "Ready" "True"],
       Node.mk "n2" [NodeCondition.mk "Ready" "False"]] 1 0 0).2⟩

lemma provRun_succ (env : ProvEnv) (fuel tick startT aIdx : Nat) :
    provRun env (fuel + 1) tick startT aIdx =
      if provTimeoutSec ≤ (tick + 1) - startT then
        if env.answers aIdx then
          match env.queries (tick + 1) with
          | Except.error e =>
            ProvOutcome.failure ((tick + 1) - (tick + 1)) 0
              ("error retrieving EC2 instances: " ++ e)
          | Except.ok insts =>
            if provPredicate insts then
              ProvOutcome.success ((tick + 1) - (tick + 1)) insts.length
            else
              provRun env fuel (tick + 1) (tick + 1) (aIdx + 1)
        else
          ProvOutcome.failure ((tick + 1) - startT) 0 userAbortMsg
      else
        match env.queries (tick + 1) with
        | Except.error e =>
          ProvOutcome.failure ((tick + 1) - startT) 0
            ("error retrieving EC2 instances: " ++ e)
        | Except.ok insts =>
          if provPredicate insts then
            ProvOutcome.success ((tick + 1) - startT) insts.length
          else
            provRun env fuel (tick + 1) startT aIdx := rfl

/-- C5: the provisioning predicate holds iff the matched-instance list
is non-empty and its first (representative) element is in the "pending"
state - the states of the remaining instances are not consulted; on
convergence the monitor returns the elapsed time together with the
count of all matched instances, and `executeBenchmark` passes exactly
that count to the registration monitor as its expected node count (the
ghost second component of the success value). -/
theorem c5_prov_representative_and_seed (i : Instance) (rest insts : List Instance)
    (penv : ProvEnv) (fuel tick startT aIdx : Nat) (env : BenchEnv)
    (res : BenchmarkResult) (gexp : Nat) :
    provPredicate [] = false ∧
    provPredicate (i :: rest) = (i.stateName == InstanceStateNamePending) ∧
    ((tick + 1) - startT < provTimeoutSec →
      penv.queries (tick + 1) = Except.ok insts →
      provPredicate insts = true →
      provRun penv (fuel + 1) tick startT aIdx =
        ProvOutcome.success ((tick + 1) - startT) insts.length) ∧
    (executeBenchmark env = Except.ok (res, gexp) →
      provRun env.provEnv env.provFuel 0 0 0 =
        ProvOutcome.success res.provisioningTime gexp) := by
  refine ⟨rfl, rfl, ?_, ?_⟩
  · intro h1 hq hpred
    rw [provRun_succ, if_neg (by omega), hq]
    simp [hpred]
  · intro hex
    unfold executeBenchmark at hex
    cases hprov : provRun env.provEnv env.provFuel 0 0 0 with
    | failure a b c => rw [hprov] at hex; simp at hex
    | running => rw [hprov] at hex; simp at hex
    | success provT n =>
      rw [hprov] at hex
      repeat' split at hex
      all_goals simp_all
      all_goals (obtain ⟨hres, hg⟩ := hex; rw [← hres])

/-- A concrete benchmark environment: two instances (only the first
pending) provision at second 1; two ready nodes register; three
replicas ready; both scale-down inventories empty at the first poll. -/
def c5Env : BenchEnv where
  provEnv :=
    ⟨fun _ => Except.ok [Instance.mk "i-1" "a" 5 "pending",
      Instance.mk "i-2" "b" 6 "running"], fun _ => false⟩
  provFuel := 3
  cancelledAt := none
  regSnaps := fun _ => Except.ok [Node.mk "r1" [NodeCondition.mk "Ready" "True"],
    Node.mk "r2" [NodeCondition.mk "Ready" "True"]]
  regFuel := 2
  podStatus := fun _ => Except.ok 3
  podFuel := 2
  replicas := 3
  deregSnaps := fun _ => Except.ok []
  deregFuel := 2
  termSnaps := fun _ => Except.ok []
  termFuel := 2
  sched := ⟨ChanPick.deregC, ChanPick.termC, false, false, false⟩

/-- Witness for C5: on `c5Env` the benchmark succeeds, the registration
phase is seeded with expected count 2, and that is exactly the
provisioning monitor's matched-instance count (note the second matched
instance is "running", not "pending"). -/
theorem c5_prov_representative_and_seed_witness :
    provRun c5Env.provEnv c5Env.provFuel 0 0 0 = ProvOutcome.success 1 2 :=
  (c5_prov_representative_and_seed (Instance.mk "x" "x" 0 "x") [] [] c5Env.provEnv
    0 0 0 0 c5Env ⟨1, 1, 1, 1, 1⟩ 2).2.2.2 rfl

/-! ### C7: timeouts -/

lemma deregRun_succ (snaps : Nat → Except String (List Node)) (c : Option Nat)
    (fuel tick : Nat) :
    deregRun snaps c (fuel + 1) tick =
      if cancelObserved c tick then
        MonOutcome.cancelled tick contextCanceledMsg
      else
        match snaps tick with
        | Except.error e => MonOutcome.queryFailed ("failed to list nodes: " ++ e)
        | Except.ok nodes =>
          if nodes.length == 0 then
            MonOutcome.success (tick + 1)
          else
            deregRun snaps c fuel (tick + 1) := rfl

lemma termRun_succ (snaps : Nat → Except String (List Instance)) (c : Option Nat)
    (fuel tick : Nat) :
    termRun snaps c (fuel + 1) tick =
      if cancelObserved c tick then
        MonOutcome.cancelled 0 contextCanceledMsg
      else
        match snaps tick with
        | Except.error e => MonOutcome.queryFailed ("failed to list instances: " ++ e)
        | Except.ok insts =>
          if insts.length == 0 then
            MonOutcome.success (tick + 1)
          else
            termRun snaps c fuel (tick + 1) := rfl

lemma podsRun_succ (status : Nat → Except String Nat) (c : Option Nat)
    (replicas fuel tick : Nat) :
    podsRun status c replicas (fuel + 1) tick =
      if cancelObserved c tick then
        MonOutcome.cancelled tick contextCanceledMsg
      else
        match status tick with
        | Except.error e => MonOutcome.queryFailed ("failed to get deployment status: " ++ e)
        | Except.ok ready =>
          if ready == replicas then
            MonOutcome.success (tick + 1)
          else
            podsRun status c replicas fuel (tick + 1) := rfl

lemma deregRun_const_nonempty (nodes : List Node) (h : (nodes.length == 0) = false) :
    ∀ fuel tick, deregRun (fun _ => Except.ok nodes) none fuel tick = MonOutcome.running := by
  intro fuel
  induction fuel with
  | zero => intro tick; rfl
  | succ n ih =>
    intro tick
    rw [deregRun_succ]
    simp only [cancelObserved, h, Bool.false_eq_true, if_false]
    exact ih (tick + 1)

lemma termRun_const_nonempty (insts : List Instance) (h : (insts.length == 0) = false) :
    ∀ fuel tick, termRun (fun _ => Except.ok insts) none fuel tick = MonOutcome.running := by
  intro fuel
  induction fuel with
  | zero => intro tick; rfl
  | succ n ih =>
    intro tick
    rw [termRun_succ]
    simp only [cancelObserved, h, Bool.false_eq_true, if_false]
    exact ih (tick + 1)

lemma podsRun_const_ne (r replicas : Nat) (h : (r == replicas) = false) :
    ∀ fuel tick, podsRun (fun _ => Except.ok r) none replicas fuel tick =
      MonOutcome.running := by
  intro fuel
  induction fuel with
  | zero => intro tick; rfl
  | succ n ih =>
    intro tick
    rw [podsRun_succ]
    simp only [cancelObserved, h, Bool.false_eq_true, if_false]
    exact ih (tick + 1)

/-- C7 counterexample to the claim as stated: the registration monitor
enforces no phase timeout at all.  With the default registration
timeout T = 600 s and poll interval p = 5 s, a ConvergenceTimeout would
have to arrive within T + p = 605 s, i.e. within 121 poll ticks; after
200 ticks (1000 s) on a never-converging inventory the monitor is still
polling, and no outcome constructor of the loop ever carries a timeout. -/
theorem c7_registration_never_times_out :
    RegistrationTimeoutSec + NodeStatusPollIntervalSec <
      200 * NodeStatusPollIntervalSec ∧
    regRun (fun _ => Except.ok []) none 1 200 0 = MonOutcome.running :=
  ⟨by decide, regRun_const_not_ready [] 1 (by decide) 200 0⟩

/-- C7 (amended): none of the registration, readiness, deregistration
or termination monitors enforces a phase timeout - on a never-true
predicate with no cancellation each polls indefinitely (the configured
per-phase timeouts are parsed but never reach any monitor); only the
provisioning monitor has a timeout, hard-coded at 60 seconds, and it is
escalatable: at 60 s an operator "no" aborts with the user-abort error
while "yes" resets the phase clock and polling continues. -/
theorem c7_only_provisioning_escalatable_timeout (expected replicas fuel tick : Nat) :
    regRun (fun _ => Except.ok []) none (expected + 1) fuel tick = MonOutcome.running ∧
    deregRun (fun _ => Except.ok [Node.mk "n" []]) none fuel tick = MonOutcome.running ∧
    termRun (fun _ => Except.ok [Instance.mk "i" "d" 1 "running"]) none fuel tick =
      MonOutcome.running ∧
    podsRun (fun _ => Except.ok (replicas + 1)) none replicas fuel tick =
      MonOutcome.running ∧
    provRun ⟨fun _ => Except.ok [], fun _ => false⟩ 60 0 0 0 =
      ProvOutcome.failure 60 0 userAbortMsg ∧
    provRun ⟨fun _ => Except.ok [], fun _ => true⟩ 120 0 0 0 = ProvOutcome.running := by
  refine ⟨?_, ?_, ?_, ?_, by decide, by decide⟩
  · exact regRun_const_not_ready [] (expected + 1)
      (by simp [countReadyNodes]) fuel tick
  · exact deregRun_const_nonempty [Node.mk "n" []] (by decide) fuel tick
  · exact termRun_const_nonempty [Instance.mk "i" "d" 1 "running"] (by decide) fuel tick
  · exact podsRun_const_ne (replicas + 1) replicas (by simp) fuel tick

/-! ### C8: cancellation -/

/-- A benchmark environment whose shared cancellation source fires at
tick 0, before any polling; the provisioning inventory first matches at
second 3. -/
def c8Env : BenchEnv where
  provEnv := ⟨fun t => if t < 3 then Except.ok []
    else Except.ok [Instance.mk "i-1" "a" 5 "pending"], fun _ => false⟩
  provFuel := 5
  cancelledAt := some 0
  regSnaps := fun _ => Except.ok []
  regFuel := 5
  podStatus := fun _ => Except.ok 0
  podFuel := 5
  replicas := 1
  deregSnaps := fun _ => Except.ok []
  deregFuel := 5
  termSnaps := fun _ => Except.ok []
  termFuel := 5
  sched := ⟨ChanPick.deregC, ChanPick.termC, false, false, false⟩

/-- C8 counterexample to the claim as stated: `MonitorInstanceProvisioning`
takes no context parameter, so the shared cancellation source is not
threaded into it.  With cancellation active from tick 0, the
provisioning poller still issues three inventory queries and returns
success instead of returning immediately with a cancellation error; the
first context-aware monitor (registration) then aborts the run with the
cancellation error. -/
theorem c8_provisioning_ignores_cancellation :
    c8Env.cancelledAt = some 0 ∧
    provRun c8Env.provEnv c8Env.provFuel 0 0 0 = ProvOutcome.success 3 1 ∧
    provQueriesIssued c8Env.provEnv c8Env.provFuel 0 0 0 = 3 ∧
    executeBenchmark c8Env =
      Except.error ("node registration monitoring failed: " ++ contextCanceledMsg) :=
  ⟨rfl, by decide, by decide, rfl⟩

/-- C8 (amended): the cancellation source is threaded into the
registration, pod-readiness, deregistration and termination monitors:
once it is observed, each returns the cancellation error immediately,
and - since the result below holds for every query stream - issues no
further inventory queries; only the provisioning monitor (no context
parameter) is exempt. -/
theorem c8_ctx_aware_monitors_cancel (snapsN : Nat → Except String (List Node))
    (snapsI : Nat → Except String (List Instance)) (status : Nat → Except String Nat)
    (c : Option Nat) (expected replicas fuel tick : Nat)
    (h : cancelObserved c tick = true) :
    regRun snapsN c expected (fuel + 1) tick =
      MonOutcome.cancelled tick contextCanceledMsg ∧
    deregRun snapsN c (fuel + 1) tick = MonOutcome.cancelled tick contextCanceledMsg ∧
    termRun snapsI c (fuel + 1) tick = MonOutcome.cancelled 0 contextCanceledMsg ∧
    podsRun status c replicas (fuel + 1) tick =
      MonOutcome.cancelled tick contextCanceledMsg := by
  refine ⟨?_, ?_, ?_, ?_⟩
  · rw [regRun_succ, if_pos h]
  · rw [deregRun_succ, if_pos h]
  · rw [termRun_succ, if_pos h]
  · rw [podsRun_succ, if_pos h]

/-- Witness for C8's amended theorem at cancellation from tick 0. -/
theorem c8_ctx_aware_monitors_cancel_witness :
    regRun (fun _ => Except.ok []) (some 0) 1 1 0 =
      MonOutcome.cancelled 0 contextCanceledMsg ∧
    deregRun (fun _ => Except.ok []) (some 0) 1 0 =
      MonOutcome.cancelled 0 contextCanceledMsg ∧
    termRun (fun _ => Except.ok []) (some 0) 1 0 =
      MonOutcome.cancelled 0 contextCanceledMsg ∧
    podsRun (fun _ => Except.ok 0) (some 0) 1 1 0 =
      MonOutcome.cancelled 0 contextCanceledMsg :=
  c8_ctx_aware_monitors_cancel (fun _ => Except.ok []) (fun _ => Except.ok [])
    (fun _ => Except.ok 0) (some 0) 1 1 0 0 (by decide)

/-! ### C1 and C2: the scale-down fan-in -/

/-- The error is one of the two wrapped branch errors. -/
def isWrappedBranchErr (o : Phase5Outcomes) (e : String) : Prop :=
  (∃ m, o.dereg = BranchOutcomeK.fail m ∧ e = wrapDereg m) ∨
  (∃ m, o.term = BranchOutcomeK.fail m ∧ e = wrapTerm m)

lemma mem_errListK (o : Phase5Outcomes) (tf : Bool) (e : String)
    (h : e ∈ errListK o tf) : isWrappedBranchErr o e := by
  obtain ⟨od, ot⟩ := o
  cases od <;> cases ot <;> cases tf <;>
    simp_all [errListK, isWrappedBranchErr] <;> tauto

lemma collectStep_ret_inv (st : CollectState) (closed : Bool) (p : ChanPick)
    (r : CollectResult) (st' : CollectState)
    (h : collectStep st closed p = some (some r, st')) :
    ∃ e rest, st.errs = e :: rest ∧ r = CollectResult.err 0 0 e ∧
      st'.errs = rest ∧ st'.dbuf = st.dbuf ∧ st'.tbuf = st.tbuf := by
  cases p with
  | errC =>
    cases he : st.errs with
    | nil =>
      simp only [collectStep, he] at h
      cases closed <;> simp_all
    | cons e rest =>
      simp only [collectStep, he, Option.some.injEq, Prod.mk.injEq] at h
      obtain ⟨h1, h2⟩ := h
      subst h2
      exact ⟨e, rest, rfl, h1.symm, rfl, rfl, rfl⟩
  | deregC =>
    cases hd : st.dbuf with
    | nil => simp only [collectStep, hd] at h; cases closed <;> simp_all
    | cons d rest => simp only [collectStep, hd] at h; simp_all
  | termC =>
    cases ht : st.tbuf with
    | nil => simp only [collectStep, ht] at h; cases closed <;> simp_all
    | cons d rest => simp only [collectStep, ht] at h; simp_all

lemma collectStep_cont_errs (st : CollectState) (closed : Bool) (p : ChanPick)
    (st' : CollectState) (h : collectStep st closed p = some (none, st')) :
    st'.errs = st.errs := by
  cases p with
  | errC =>
    cases he : st.errs with
    | nil =>
      simp only [collectStep, he] at h
      cases closed with
      | false => simp at h
      | true => simp at h; try subst h
                simp_all
    | cons e rest => simp only [collectStep, he] at h; simp_all
  | deregC =>
    cases hd : st.dbuf with
    | nil =>
      simp only [collectStep, hd] at h
      cases closed with
      | false => simp at h
      | true => simp at h; try subst h
                simp_all
    | cons d rest =>
      simp only [collectStep, hd] at h
      simp at h
      try subst h
      simp_all
  | termC =>
    cases ht : st.tbuf with
    | nil =>
      simp only [collectStep, ht] at h
      cases closed with
      | false => simp at h
      | true => simp at h; try subst h
                simp_all
    | cons d rest =>
      simp only [collectStep, ht] at h
      simp at h
      try subst h
      simp_all

lemma initState_errs (o : Phase5Outcomes) (s : Sched) :
    (initState o s).errs = errListK o s.termErrFirst := rfl

lemma collect_err_inv (o : Phase5Outcomes) (s : Sched) (d t : Nat) (e : String)
    (h : collect o s = CollectResult.err d t e) :
    d = 0 ∧ t = 0 ∧ isWrappedBranchErr o e := by
  simp only [collect, collectTrace] at h
  split at h
  · simp at h
  · rename_i r st1 heq
    try dsimp only at h
    obtain ⟨e0, rest, herrs, hr, -, -, -⟩ := collectStep_ret_inv _ _ _ _ _ heq
    subst hr
    simp only [CollectResult.err.injEq] at h
    obtain ⟨h1, h2, h3⟩ := h
    refine ⟨h1.symm, h2.symm, ?_⟩
    rw [← h3]
    exact mem_errListK o s.termErrFirst e0
      (by rw [← initState_errs o s, herrs]; exact List.mem_cons_self _ _)
  · rename_i st1 heq0
    split at h
    · simp at h
    · rename_i r st2 heq1
      try dsimp only at h
      obtain ⟨e0, rest, herrs, hr, -, -, -⟩ := collectStep_ret_inv _ _ _ _ _ heq1
      subst hr
      simp only [CollectResult.err.injEq] at h
      obtain ⟨h1, h2, h3⟩ := h
      refine ⟨h1.symm, h2.symm, ?_⟩
      rw [← h3]
      have hst1 : st1.errs = errListK o s.termErrFirst := by
        rw [collectStep_cont_errs _ _ _ _ heq0, initState_errs]
      exact mem_errListK o s.termErrFirst e0
        (by rw [← hst1, herrs]; exact List.mem_cons_self _ _)
    · rename_i st2 heq1
      try dsimp only at h
      simp at h

lemma collect_unclosed_fail (od ot : BranchOutcomeK) (p0 p1 : ChanPick) (tf : Bool)
    (hf : (∃ m, od = BranchOutcomeK.fail m) ∨ (∃ m, ot = BranchOutcomeK.fail m)) :
    (∃ m, collect ⟨od, ot⟩ ⟨p0, p1, false, false, tf⟩ = CollectResult.err 0 0 m) ∨
      collect ⟨od, ot⟩ ⟨p0, p1, false, false, tf⟩ = CollectResult.blocked := by
  cases od <;> cases ot <;> cases p0 <;> cases p1 <;> cases tf <;>
    simp_all [collect, collectTrace, collectStep, initState, errListK,
      deregBufK, termBufK]

lemma collect_unclosed_ok (dd tt : Nat) (p0 p1 : ChanPick) (tf : Bool) :
    collect ⟨BranchOutcomeK.ok dd, BranchOutcomeK.ok tt⟩ ⟨p0, p1, false, false, tf⟩ =
      CollectResult.ok dd tt ∨
    collect ⟨BranchOutcomeK.ok dd, BranchOutcomeK.ok tt⟩ ⟨p0, p1, false, false, tf⟩ =
      CollectResult.blocked := by
  cases p0 <;> cases p1 <;> cases tf <;>
    simp [collect, collectTrace, collectStep, initState, errListK,
      deregBufK, termBufK]

/-- C1 counterexample to the claim as stated: the deregistration branch
fails, the termination branch succeeds with duration 18, and on the
schedule where the closer goroutine has already closed the channels the
collector reads the termination duration and then the closed
deregistration channel's zero value: it returns success carrying the
sibling's duration while the deregistration failure is silently
dropped. -/
theorem c1_closed_channel_drops_error :
    (Phase5Outcomes.mk (BranchOutcomeK.fail "boom") (BranchOutcomeK.ok 18)).dereg =
      BranchOutcomeK.fail "boom" ∧
    collect ⟨BranchOutcomeK.fail "boom", BranchOutcomeK.ok 18⟩
      ⟨ChanPick.termC, ChanPick.deregC, true, true, false⟩ =
      CollectResult.ok 0 18 :=
  ⟨rfl, rfl⟩

/-- C1 (amended): every error the coordinator returns comes with
zero-valued durations and is exactly one wrapped branch error, and on
schedules where the channels are not yet closed when the collector
reads, the claimed atomicity holds: a failure in either branch makes
the completed collector return a single error with zero durations, and
two successes make it return both durations.  When the closer has
already closed the channels, however, a branch failure can be reported
as success (see the counterexample): the zero value read from a closed
duration channel can consume the iteration that should have read the
error. -/
theorem c1_fan_in_atomicity (o : Phase5Outcomes) (s : Sched) (d t dd tt : Nat)
    (e : String) :
    (collect o s = CollectResult.err d t e →
      d = 0 ∧ t = 0 ∧ isWrappedBranchErr o e) ∧
    (s.closed0 = false → s.closed1 = false →
      (((∃ m, o.dereg = BranchOutcomeK.fail m) ∨
          (∃ m, o.term = BranchOutcomeK.fail m)) →
        (∃ m, collect o s = CollectResult.err 0 0 m) ∨
          collect o s = CollectResult.blocked) ∧
      (o.dereg = BranchOutcomeK.ok dd → o.term = BranchOutcomeK.ok tt →
        collect o s = CollectResult.ok dd tt ∨
          collect o s = CollectResult.blocked)) := by
  obtain ⟨od, ot⟩ := o
  obtain ⟨p0, p1, c0, c1, tf⟩ := s
  refine ⟨fun h => collect_err_inv _ _ _ _ _ h, fun hc0 hc1 => ?_⟩
  dsimp only at hc0 hc1
  subst hc0
  subst hc1
  refine ⟨?_, ?_⟩
  · intro hf
    exact collect_unclosed_fail od ot p0 p1 tf (by simpa using hf)
  · intro h1 h2
    dsimp only at h1 h2
    subst h1
    subst h2
    exact collect_unclosed_ok dd tt p0 p1 tf

/-- Witness for C1 at a concrete failing deregistration branch with an
unclosed error-channel-first schedule. -/
theorem c1_fan_in_atomicity_witness :
    (0 : Nat) = 0 ∧ (0 : Nat) = 0 ∧
      isWrappedBranchErr ⟨BranchOutcomeK.fail "x", BranchOutcomeK.ok 7⟩
        (wrapDereg "x") :=
  (c1_fan_in_atomicity ⟨BranchOutcomeK.fail "x", BranchOutcomeK.ok 7⟩
    ⟨ChanPick.errC, ChanPick.termC, false, false, false⟩ 0 0 0 0 (wrapDereg "x")).1 rfl

lemma collectTrace_never_cancels (o : Phase5Outcomes) (s : Sched) :
    (collectTrace o s).contextCancelledByCollector = false := by
  simp only [collectTrace]
  split
  · rfl
  · rfl
  · split <;> rfl

lemma chan_capacities (o : Phase5Outcomes) (b : Bool) :
    (deregBufK o).length ≤ 1 ∧ (termBufK o).length ≤ 1 ∧
      (errListK o b).length ≤ 2 := by
  obtain ⟨od, ot⟩ := o
  cases od <;> cases ot <;> cases b <;> simp [deregBufK, termBufK, errListK]

/-- C2 counterexample to the claim as stated: with the deregistration
branch failing and the termination branch succeeding, on the schedule
where the collector selects the error first it returns after exactly
one read, never cancels any context (the source holds no CancelFunc),
and leaves the sibling's completion signal sitting in its buffer
undrained; with the shared context untriggered, a sibling termination
poller that has not yet converged keeps polling after the coordinator
has returned. -/
theorem c2_no_cancel_no_drain :
    (collectTrace ⟨BranchOutcomeK.fail "boom", BranchOutcomeK.ok 18⟩
        ⟨ChanPick.errC, ChanPick.deregC, false, false, false⟩).result =
      CollectResult.err 0 0 (wrapDereg "boom") ∧
    (collectTrace ⟨BranchOutcomeK.fail "boom", BranchOutcomeK.ok 18⟩
        ⟨ChanPick.errC, ChanPick.deregC, false, false, false⟩).reads = 1 ∧
    (collectTrace ⟨BranchOutcomeK.fail "boom", BranchOutcomeK.ok 18⟩
        ⟨ChanPick.errC, ChanPick.deregC, false, false, false⟩).final.tbuf = [18] ∧
    (collectTrace ⟨BranchOutcomeK.fail "boom", BranchOutcomeK.ok 18⟩
        ⟨ChanPick.errC, ChanPick.deregC, false, false, false⟩).contextCancelledByCollector =
      false ∧
    termRun (fun _ => Except.ok [Instance.mk "i-b" "d" 2 "running"]) none 30 0 =
      MonOutcome.running :=
  ⟨rfl, rfl, rfl, rfl,
    termRun_const_nonempty [Instance.mk "i-b" "d" 2 "running"] (by decide) 30 0⟩

/-- C2 (amended): on reading the first error the coordinator returns
that single wrapped error with zero durations after exactly one read;
it cancels no context and drains nothing - the sibling's signal stays
in its buffer, and the sibling poller runs on until its own completion
or parent cancellation.  The buffered capacities (1 per duration
channel, 2 for the error channel) cover every publication, so the
unread send never blocks. -/
theorem c2_error_return_behavior (o : Phase5Outcomes) (s : Sched) (e : String)
    (rest : List String) (b : Bool) :
    (errListK o s.termErrFirst = e :: rest → s.pick0 = ChanPick.errC →
      (collectTrace o s).result = CollectResult.err 0 0 e ∧
      (collectTrace o s).reads = 1 ∧
      (collectTrace o s).final.errs = rest ∧
      (collectTrace o s).final.dbuf = deregBufK o ∧
      (collectTrace o s).final.tbuf = termBufK o) ∧
    (collectTrace o s).contextCancelledByCollector = false ∧
    (deregBufK o).length ≤ 1 ∧ (termBufK o).length ≤ 1 ∧
      (errListK o b).length ≤ 2 := by
  refine ⟨?_, collectTrace_never_cancels o s, chan_capacities o b⟩
  intro herr hpick
  have h0 : collectStep (initState o s) s.closed0 s.pick0 =
      some (some (CollectResult.err 0 0 e),
        ⟨rest, deregBufK o, termBufK o, 0, 0⟩) := by
    rw [hpick]
    simp [collectStep, initState, herr]
  refine ⟨?_, ?_, ?_, ?_, ?_⟩ <;>
    · simp only [collectTrace]
      rw [h0]

/-- Witness for C2's amended theorem at a concrete failing
deregistration branch. -/
theorem c2_error_return_behavior_witness :
    (collectTrace ⟨BranchOutcomeK.fail "z", BranchOutcomeK.ok 9⟩
        ⟨ChanPick.errC, ChanPick.termC, false, false, false⟩).result =
      CollectResult.err 0 0 (wrapDereg "z") ∧
    (collectTrace ⟨BranchOutcomeK.fail "z", BranchOutcomeK.ok 9⟩
        ⟨ChanPick.errC, ChanPick.termC, false, false, false⟩).reads = 1 ∧
    (collectTrace ⟨BranchOutcomeK.fail "z", BranchOutcomeK.ok 9⟩
        ⟨ChanPick.errC, ChanPick.termC, false, false, false⟩).final.errs = [] ∧
    (collectTrace ⟨BranchOutcomeK.fail "z", BranchOutcomeK.ok 9⟩
        ⟨ChanPick.errC, ChanPick.termC, false, false, false⟩).final.dbuf =
      deregBufK ⟨BranchOutcomeK.fail "z", BranchOutcomeK.ok 9⟩ ∧
    (collectTrace ⟨BranchOutcomeK.fail "z", BranchOutcomeK.ok 9⟩
        ⟨ChanPick.errC, ChanPick.termC, false, false, false⟩).final.tbuf =
      termBufK ⟨BranchOutcomeK.fail "z", BranchOutcomeK.ok 9⟩ :=
  (c2_error_return_behavior ⟨BranchOutcomeK.fail "z", BranchOutcomeK.ok 9⟩
    ⟨ChanPick.errC, ChanPick.termC, false, false, false⟩ (wrapDereg "z") [] false).1
    rfl rfl

end KAB
